import Mathlib

/-!
# BudgetWise-AI: verification of the budget/goal calculation module

Shallow embedding of the repository's core functions:

* `src/utils.py` — `calculate_monthly_savings`, `paper_cut_yearly_impact`,
  `goal_eta`, `GOAL_CATEGORIES`;
* `src/app.py` — `run_ai_assistant` (model-fallback/retry policy).

Python floats are modelled as rationals (`ℚ`, exact arithmetic); Python's
builtin `round(x, n)` is modelled as round-half-to-even at `n` decimal
places (`roundTo`); Python's `int(x)` conversion is truncation toward zero
(`pyInt`); `datetime.date` is a proleptic Gregorian calendar date (`Date`)
with `timedelta`-addition (`addDays`) and `isoformat`.  The wall-clock date
read by `goal_eta` (`datetime.now().date()`) is injected as the explicit
parameter `today`, as the spec requires for testing.  Python f-string
messages are abstracted by the inductive `GoalMessage`, which records which
message was produced together with the numeric/string parameters
interpolated into it.
-/

namespace BudgetWise

/-- Round-half-to-even of a rational to an integer: the semantics of
Python's builtin `round` (banker's rounding). -/
def rndHalfEven (q : ℚ) : ℤ :=
  if q - ⌊q⌋ < 1/2 then ⌊q⌋
  else if 1/2 < q - ⌊q⌋ then ⌊q⌋ + 1
  else if ⌊q⌋ % 2 = 0 then ⌊q⌋ else ⌊q⌋ + 1

/-- Python `round(q, n)`: round-half-to-even at `n` decimal places. -/
def roundTo (n : ℕ) (q : ℚ) : ℚ :=
  (rndHalfEven (q * 10 ^ n) : ℚ) / 10 ^ n

/-- Python `int(q)`: truncation toward zero. -/
def pyInt (q : ℚ) : ℤ :=
  if 0 ≤ q then ⌊q⌋ else ⌈q⌉

/-- A proleptic Gregorian calendar date, as held by Python's
`datetime.date`. -/
structure Date where
  year : ℕ
  month : ℕ
  day : ℕ
deriving Repr, DecidableEq

/-- Gregorian leap-year rule. -/
def isLeap (y : ℕ) : Bool :=
  (y % 4 == 0 && y % 100 != 0) || y % 400 == 0

/-- Number of days in month `m` of year `y`. -/
def daysInMonth (y m : ℕ) : ℕ :=
  if m = 2 then (if isLeap y then 29 else 28)
  else if m = 4 ∨ m = 6 ∨ m = 9 ∨ m = 11 then 30
  else 31

/-- The calendar day after `d`. -/
def nextDay (d : Date) : Date :=
  if d.day < daysInMonth d.year d.month then ⟨d.year, d.month, d.day + 1⟩
  else if d.month < 12 then ⟨d.year, d.month + 1, 1⟩
  else ⟨d.year + 1, 1, 1⟩

/-- `d + timedelta(days := n)` for `n ≥ 0`. -/
def addDays (d : Date) : ℕ → Date
  | 0 => d
  | n + 1 => nextDay (addDays d n)

/-- Zero-padded two-digit decimal rendering. -/
def pad2 (n : ℕ) : String :=
  if n < 10 then "0" ++ toString n else toString n

/-- Zero-padded four-digit decimal rendering. -/
def pad4 (n : ℕ) : String :=
  if n < 10 then "000" ++ toString n
  else if n < 100 then "00" ++ toString n
  else if n < 1000 then "0" ++ toString n
  else toString n

/-- Python `date.isoformat()`: `YYYY-MM-DD`. -/
def Date.isoformat (d : Date) : String :=
  pad4 d.year ++ "-" ++ pad2 d.month ++ "-" ++ pad2 d.day

/-! ## `src/utils.py` -/

/-- `calculate_monthly_savings(income, expenses)`:
`max(0.0, float(income) - float(expenses))`. -/
def calculate_monthly_savings (income expenses : ℚ) : ℚ :=
  max 0 (income - expenses)

/-- The dict returned by `paper_cut_yearly_impact`. -/
structure PaperCutResult where
  yearly_current : ℚ
  yearly_alternative : ℚ
  yearly_savings : ℚ
  description : String
deriving Repr, DecidableEq

/-- `paper_cut_yearly_impact(current_expense, alternative_expense,
frequency_per_week, description = "")`.  The Python body clamps the
frequency (`freq = max(0.0, float(frequency_per_week))`), projects both
costs over `weeks_per_year = 52.0`, takes the savings difference of the
unrounded yearly values, rounds all three to 2 decimals, and replaces a
falsy (empty) description with the fixed default
(`description or "Paper cut expense vs alternative"`).  The Python default
argument `description = ""` corresponds to passing `""` here. -/
def paper_cut_yearly_impact (current_expense alternative_expense
    frequency_per_week : ℚ) (description : String) : PaperCutResult :=
  { yearly_current :=
      roundTo 2 (current_expense * max 0 frequency_per_week * 52)
    yearly_alternative :=
      roundTo 2 (alternative_expense * max 0 frequency_per_week * 52)
    yearly_savings :=
      roundTo 2 (current_expense * max 0 frequency_per_week * 52
        - alternative_expense * max 0 frequency_per_week * 52)
    description :=
      if description = "" then "Paper cut expense vs alternative"
      else description }

/-- Which `message` f-string `goal_eta` produced, with the values
interpolated into it: `alreadyReached` is
"You have already reached or exceeded the {goal_name} target.";
`unreachable` is "Cannot reach {goal_name} with current monthly savings
(${monthly:,.2f}). Increase income or reduce expenses."; `reachable` is
"At ${monthly:,.2f}/month savings, you will reach {goal_name} in
~{months_needed:.1f} months." -/
inductive GoalMessage where
  | alreadyReached (goal_name : String)
  | unreachable (goal_name : String) (monthly : ℚ)
  | reachable (goal_name : String) (monthly : ℚ) (months_needed : ℚ)
deriving Repr, DecidableEq

/-- The dict returned by `goal_eta`.  `months_needed` is `None` or a
number; `eta_date` is `None` or an ISO-format date string. -/
structure GoalEtaResult where
  months_needed : Option ℚ
  reachable : Bool
  message : GoalMessage
  eta_date : Option String
deriving Repr, DecidableEq

/-- `goal_eta(goal_amount, current_savings, monthly_savings,
goal_name = "Goal")`.  The Python body clamps `goal` and `current` to ≥ 0,
uses `monthly` as-is, and branches on `remaining = goal - current ≤ 0`,
then `monthly ≤ 0`; in the last branch
`months_needed = remaining / monthly`,
`eta_date = (today + timedelta(days=int(months_needed * 30.44))).isoformat()`
with `today = datetime.now().date()` injected here as the parameter
`today`, and the reported `months_needed` is `round(months_needed, 1)`.
The Python default argument `goal_name = "Goal"` corresponds to passing
`"Goal"` here. -/
def goal_eta (goal_amount current_savings monthly_savings : ℚ)
    (today : Date) (goal_name : String) : GoalEtaResult :=
  if max 0 goal_amount - max 0 current_savings ≤ 0 then
    { months_needed := some 0
      reachable := true
      message := GoalMessage.alreadyReached goal_name
      eta_date := none }
  else if monthly_savings ≤ 0 then
    { months_needed := none
      reachable := false
      message := GoalMessage.unreachable goal_name monthly_savings
      eta_date := none }
  else
    { months_needed := some (roundTo 1
        ((max 0 goal_amount - max 0 current_savings) / monthly_savings))
      reachable := true
      message := GoalMessage.reachable goal_name monthly_savings
        ((max 0 goal_amount - max 0 current_savings) / monthly_savings)
      eta_date := some ((addDays today
        (pyInt ((max 0 goal_amount - max 0 current_savings)
          / monthly_savings * (30.44 : ℚ))).toNat).isoformat) }

/-- `GOAL_CATEGORIES` from `src/utils.py`. -/
def GOAL_CATEGORIES : List String := ["Home", "Car", "Vacation", "School"]

/-! ## `src/app.py`: `run_ai_assistant`

The external Dedalus backend is modelled as an injected client: a function
from (prompt, model identifier) to the typed outcome of
`asyncio.run(_run(model))` — either the awaited `response.final_output`
(`None` and `""` are both falsy in Python, hence `Option String`), or one
of the exception classes caught by the `for model in models_to_try` loop.
The environment/key discovery of `_get_dedalus_api_key` is out of scope
(per the spec) and is injected as the `api_key` argument, `""` meaning
"not set or placeholder". -/

/-- Outcome of one `runner.run` attempt against a single model:
`success` is a normal return carrying `response.final_output`; the other
constructors are the exception classes caught in `run_ai_assistant`. -/
inductive AgentOutcome where
  | success (final_output : Option String)
  | internalServerError
  | rateLimitError
  | apiConnectionError
  | apiError (msg : String)
  | otherError (msg : String)
deriving Repr, DecidableEq

/-- `models_to_try` from `run_ai_assistant`: candidate model identifiers
in fixed priority order. -/
def models_to_try : List String :=
  ["anthropic/claude-opus-4-6", "anthropic/claude-sonnet-4",
   "anthropic/claude-3-5-sonnet-latest"]

/-- The "not configured" message returned when no usable key is found. -/
def no_key_message : String :=
  "⚠️ DEDALUS_API_KEY is not set or still placeholder. Add your real key to `.env` in the project folder and restart the app."

/-- The message returned on `RateLimitError`. -/
def rate_limit_message : String :=
  "⚠️ Rate limit reached. Please wait a minute and try again."

/-- The message returned on `APIConnectionError`. -/
def connection_error_message : String :=
  "⚠️ Could not reach Dedalus. Check your internet connection and try again."

/-- The message returned after the loop exhausts `models_to_try` with only
`InternalServerError`s. -/
def all_models_failed_message : String :=
  "⚠️ Dedalus API returned server errors for all models tried. Please try again in a few minutes or contact support@dedaluslabs.ai."

/-- The prompt built once in `run_ai_assistant` from the user message and
the budget context, and re-used unchanged for every candidate model. -/
def build_prompt (user_message budget_context : String) : String :=
  "Current user budget context (use these numbers when calling tools):\n"
    ++ budget_context ++ "\n\n"
    ++ "User question: " ++ user_message ++ "\n\n"
    ++ "Use the tools when relevant: e.g. for \x27how much would I save if I quit Starbucks?\x27 "
    ++ "call paper_cut_yearly_impact; for \x27when can I afford X?\x27 call goal_eta. "
    ++ "Reply in a short, helpful way and include the numbers from the tools."

/-- The `for model in models_to_try` loop of `run_ai_assistant`: try each
model in order with the same prompt; a successful run returns
`final_output or "No response."`; `InternalServerError` falls through to
the next model; every other caught exception returns its message
immediately; falling off the end returns `all_models_failed_message`. -/
def run_models (client : String → String → AgentOutcome)
    (prompt : String) : List String → String
  | [] => all_models_failed_message
  | model :: rest =>
    match client prompt model with
    | AgentOutcome.success final_output =>
        match final_output with
        | none => "No response."
        | some s => if s = "" then "No response." else s
    | AgentOutcome.internalServerError => run_models client prompt rest
    | AgentOutcome.rateLimitError => rate_limit_message
    | AgentOutcome.apiConnectionError => connection_error_message
    | AgentOutcome.apiError msg =>
        "⚠️ API error: " ++ msg ++ ". Try again or check your API key."
    | AgentOutcome.otherError msg =>
        "⚠️ Something went wrong: " ++ msg
          ++ ". Try again or check the console for details."

/-- `run_ai_assistant(user_message, budget_context)` with the key lookup
and the backend injected. -/
def run_ai_assistant (client : String → String → AgentOutcome)
    (api_key user_message budget_context : String) : String :=
  if api_key = "" then no_key_message
  else run_models client (build_prompt user_message budget_context)
    models_to_try

/-! ## Helper lemmas about rounding -/

theorem rndHalfEven_of_below (q : ℚ) (n : ℤ) (h1 : (n : ℚ) ≤ q)
    (h2 : q < (n : ℚ) + 1/2) : rndHalfEven q = n := by
  have hf : ⌊q⌋ = n := Int.floor_eq_iff.mpr ⟨h1, by linarith⟩
  unfold rndHalfEven
  rw [hf, if_pos (by linarith)]

theorem rndHalfEven_of_above (q : ℚ) (n : ℤ) (h1 : (n : ℚ) + 1/2 < q)
    (h2 : q < (n : ℚ) + 1) : rndHalfEven q = n + 1 := by
  have hf : ⌊q⌋ = n := Int.floor_eq_iff.mpr ⟨by linarith, by linarith⟩
  unfold rndHalfEven
  rw [hf, if_neg (by linarith), if_pos (by linarith)]

theorem abs_rndHalfEven_sub_le (q : ℚ) : |(rndHalfEven q : ℚ) - q| ≤ 1/2 := by
  have hfl : (⌊q⌋ : ℚ) ≤ q := Int.floor_le q
  have hfu : q < ⌊q⌋ + 1 := Int.lt_floor_add_one q
  unfold rndHalfEven
  split_ifs with hc1 hc2 hc3 <;> rw [abs_le] <;> push_cast <;> constructor <;> linarith

theorem int_combo_small (k1 k2 k3 : ℤ) (z x y : ℚ) (hz : z = x - y)
    (h1 : |(k1 : ℚ) - z| ≤ 1/2) (h2 : |(k2 : ℚ) - x| ≤ 1/2)
    (h3 : |(k3 : ℚ) - y| ≤ 1/2) : |(k1 : ℚ) - k2 + k3| ≤ 1 := by
  subst hz
  obtain ⟨h1a, h1b⟩ := abs_le.mp h1
  obtain ⟨h2a, h2b⟩ := abs_le.mp h2
  obtain ⟨h3a, h3b⟩ := abs_le.mp h3
  have hs : ((k1 - k2 + k3 : ℤ) : ℚ) = (k1 : ℚ) - k2 + k3 := by push_cast; ring
  have hz2 : k1 - k2 + k3 ≤ 1 := by
    have hq : ((k1 - k2 + k3 : ℤ) : ℚ) < 2 := by rw [hs]; linarith
    have hi : (k1 - k2 + k3 : ℤ) < 2 := by exact_mod_cast hq
    linarith
  have hz3 : (-1 : ℤ) ≤ k1 - k2 + k3 := by
    have hq : (-2 : ℚ) < ((k1 - k2 + k3 : ℤ) : ℚ) := by rw [hs]; linarith
    have hi : (-2 : ℤ) < (k1 - k2 + k3 : ℤ) := by exact_mod_cast hq
    linarith
  rw [abs_le]
  constructor
  · rw [← hs]; exact_mod_cast hz3
  · rw [← hs]; exact_mod_cast hz2

theorem roundTo_sub_sub_bound (A B : ℚ) :
    |roundTo 2 (A - B) - (roundTo 2 A - roundTo 2 B)| ≤ 1/100 := by
  have h1 := abs_rndHalfEven_sub_le ((A - B) * 10 ^ 2)
  have h2 := abs_rndHalfEven_sub_le (A * 10 ^ 2)
  have h3 := abs_rndHalfEven_sub_le (B * 10 ^ 2)
  have hcombo := int_combo_small (rndHalfEven ((A - B) * 10 ^ 2))
    (rndHalfEven (A * 10 ^ 2)) (rndHalfEven (B * 10 ^ 2))
    ((A - B) * 10 ^ 2) (A * 10 ^ 2) (B * 10 ^ 2) (by ring) h1 h2 h3
  unfold roundTo
  have heq : (rndHalfEven ((A - B) * 10 ^ 2) : ℚ) / 10 ^ 2
      - ((rndHalfEven (A * 10 ^ 2) : ℚ) / 10 ^ 2
        - (rndHalfEven (B * 10 ^ 2) : ℚ) / 10 ^ 2)
      = ((rndHalfEven ((A - B) * 10 ^ 2) : ℚ) - (rndHalfEven (A * 10 ^ 2) : ℚ)
          + (rndHalfEven (B * 10 ^ 2) : ℚ)) / 100 := by ring
  rw [heq, abs_div, abs_of_pos (by norm_num : (0:ℚ) < 100)]
  exact (div_le_div_iff_of_pos_right (by norm_num)).mpr hcombo

/-! ## Claim theorems -/

/-- C3: for every income and expenses, `calculate_monthly_savings` returns
`max 0 (income - expenses)`; the result is never negative, and is `0`
whenever expenses exceed income. -/
theorem calculate_monthly_savings_spec (income expenses : ℚ) :
    calculate_monthly_savings income expenses = max 0 (income - expenses)
    ∧ 0 ≤ calculate_monthly_savings income expenses
    ∧ (income ≤ expenses → calculate_monthly_savings income expenses = 0) :=
  ⟨rfl, le_max_left _ _,
    fun h => max_eq_left (by linarith)⟩

theorem calculate_monthly_savings_spec_witness :
    (1000 : ℚ) ≤ 1500 ∧ calculate_monthly_savings 1000 1500 = 0 :=
  ⟨by norm_num, (calculate_monthly_savings_spec 1000 1500).2.2 (by norm_num)⟩

/-- C2: `paper_cut_yearly_impact` returns exactly the record whose yearly
fields are the 2-decimal roundings of `cost × max 0 freq × 52`, whose
savings field is the 2-decimal rounding of the unrounded difference, and
whose description is the input when non-empty and the fixed default when
empty. -/
theorem paper_cut_yearly_impact_spec (current_expense alternative_expense
    frequency_per_week : ℚ) (description : String) :
    (paper_cut_yearly_impact current_expense alternative_expense
        frequency_per_week description).yearly_current
      = roundTo 2 (current_expense * max 0 frequency_per_week * 52)
    ∧ (paper_cut_yearly_impact current_expense alternative_expense
        frequency_per_week description).yearly_alternative
      = roundTo 2 (alternative_expense * max 0 frequency_per_week * 52)
    ∧ (paper_cut_yearly_impact current_expense alternative_expense
        frequency_per_week description).yearly_savings
      = roundTo 2 (current_expense * max 0 frequency_per_week * 52
          - alternative_expense * max 0 frequency_per_week * 52)
    ∧ (description ≠ "" → (paper_cut_yearly_impact current_expense
        alternative_expense frequency_per_week description).description
      = description)
    ∧ (paper_cut_yearly_impact current_expense alternative_expense
        frequency_per_week "").description
      = "Paper cut expense vs alternative" := by
  refine ⟨rfl, rfl, rfl, fun hd => ?_, rfl⟩
  simp [paper_cut_yearly_impact, hd]

theorem paper_cut_yearly_impact_spec_witness :
    ("Starbucks vs home" : String) ≠ ""
    ∧ (paper_cut_yearly_impact 5 1 2 "Starbucks vs home").description
      = "Starbucks vs home" :=
  ⟨by decide, (paper_cut_yearly_impact_spec 5 1 2 "Starbucks vs home").2.2.2.1
    (by decide)⟩

/-- C4: whenever the clamped goal minus the clamped current savings is
≤ 0, `goal_eta` returns months_needed = 0, reachable = true,
eta_date = null and the already-reached message, regardless of
`monthly_savings`. -/
theorem goal_eta_already_met (goal_amount current_savings monthly_savings
    : ℚ) (today : Date) (goal_name : String)
    (h : max 0 goal_amount - max 0 current_savings ≤ 0) :
    goal_eta goal_amount current_savings monthly_savings today goal_name
      = { months_needed := some 0
          reachable := true
          message := GoalMessage.alreadyReached goal_name
          eta_date := none } := by
  unfold goal_eta
  rw [if_pos h]

theorem goal_eta_already_met_witness :
    max 0 (1000 : ℚ) - max 0 (1500 : ℚ) ≤ 0
    ∧ goal_eta 1000 1500 100 ⟨2026, 1, 1⟩ "Goal"
      = { months_needed := some 0
          reachable := true
          message := GoalMessage.alreadyReached "Goal"
          eta_date := none } :=
  ⟨by norm_num, goal_eta_already_met 1000 1500 100 ⟨2026, 1, 1⟩ "Goal"
    (by norm_num)⟩

/-- C5: `goal_eta` reports reachable = false exactly when the monthly
savings rate is ≤ 0 and the goal is not already met; months_needed is
null exactly when reachable is false; and in that case eta_date is null
and the message is the cannot-reach message (which suggests increasing
income or reducing expenses). -/
theorem goal_eta_unreachable_iff (goal_amount current_savings
    monthly_savings : ℚ) (today : Date) (goal_name : String) :
    ((goal_eta goal_amount current_savings monthly_savings today
        goal_name).reachable = false
      ↔ monthly_savings ≤ 0
        ∧ 0 < max 0 goal_amount - max 0 current_savings)
    ∧ ((goal_eta goal_amount current_savings monthly_savings today
        goal_name).months_needed = none
      ↔ (goal_eta goal_amount current_savings monthly_savings today
        goal_name).reachable = false)
    ∧ ((goal_eta goal_amount current_savings monthly_savings today
        goal_name).reachable = false →
      (goal_eta goal_amount current_savings monthly_savings today
        goal_name).eta_date = none
      ∧ (goal_eta goal_amount current_savings monthly_savings today
        goal_name).message
        = GoalMessage.unreachable goal_name monthly_savings) := by
  unfold goal_eta
  split_ifs with h1 h2
  · refine ⟨?_, by simp, by simp⟩
    simp only [Bool.true_eq_false, false_iff]
    rintro ⟨-, hpos⟩
    exact absurd h1 (not_le.mpr hpos)
  · refine ⟨?_, by simp, by simp⟩
    simp only [true_iff]
    exact ⟨h2, not_le.mp h1⟩
  · refine ⟨?_, by simp, by simp⟩
    simp only [Bool.true_eq_false, false_iff]
    rintro ⟨hm, -⟩
    exact absurd hm (not_le.mpr (lt_of_not_le h2))

theorem goal_eta_unreachable_iff_witness :
    ((goal_eta 1000 0 0 ⟨2026, 1, 1⟩ "Goal").reachable = false
      ↔ (0 : ℚ) ≤ 0 ∧ 0 < max 0 (1000 : ℚ) - max 0 (0 : ℚ))
    ∧ ((goal_eta 1000 0 0 ⟨2026, 1, 1⟩ "Goal").months_needed = none
      ↔ (goal_eta 1000 0 0 ⟨2026, 1, 1⟩ "Goal").reachable = false)
    ∧ ((goal_eta 1000 0 0 ⟨2026, 1, 1⟩ "Goal").reachable = false →
      (goal_eta 1000 0 0 ⟨2026, 1, 1⟩ "Goal").eta_date = none
      ∧ (goal_eta 1000 0 0 ⟨2026, 1, 1⟩ "Goal").message
        = GoalMessage.unreachable "Goal" 0) :=
  goal_eta_unreachable_iff 1000 0 0 ⟨2026, 1, 1⟩ "Goal"

/-- C6 (counterexample): the claimed invariant "eta_date is null exactly
when months_needed is null" fails at goalAmount = 1000,
currentSavings = 1500, monthlySavings = 100: there eta_date is null while
months_needed is 0, not null. -/
theorem goal_eta_eta_date_null_iff_cx :
    ¬((goal_eta 1000 1500 100 ⟨2026, 1, 1⟩ "Goal").eta_date = none
      ↔ (goal_eta 1000 1500 100 ⟨2026, 1, 1⟩ "Goal").months_needed
        = none) := by
  unfold goal_eta
  rw [if_pos (by norm_num)]
  simp

/-- C6 (amended): eta_date is null exactly when months_needed is null OR
the goal is already met (clamped goal minus clamped current savings
≤ 0); the null months_needed case still forces a null eta_date, but the
already-met branch returns months_needed = 0 with a null eta_date. -/
theorem goal_eta_eta_date_null_iff (goal_amount current_savings
    monthly_savings : ℚ) (today : Date) (goal_name : String) :
    (goal_eta goal_amount current_savings monthly_savings today
        goal_name).eta_date = none
      ↔ ((goal_eta goal_amount current_savings monthly_savings today
          goal_name).months_needed = none
        ∨ max 0 goal_amount - max 0 current_savings ≤ 0) := by
  unfold goal_eta
  split_ifs with h1 h2
  · simp [h1]
  · simp
  · simp [h1]

set_option maxRecDepth 8000

/-- C1: when the clamped goal exceeds the clamped current savings and the
monthly savings rate is positive, `goal_eta` (with an injected reference
date) returns months_needed = the quotient rounded to 1 decimal,
reachable = true, and eta_date = the reference date plus
floor(monthsNeeded × 30.44) days as a calendar date. -/
theorem goal_eta_reachable_spec (goal_amount current_savings
    monthly_savings : ℚ) (today : Date) (goal_name : String)
    (h1 : 0 < max 0 goal_amount - max 0 current_savings)
    (h2 : 0 < monthly_savings) :
    goal_eta goal_amount current_savings monthly_savings today goal_name
      = { months_needed := some (roundTo 1
            ((max 0 goal_amount - max 0 current_savings) / monthly_savings))
          reachable := true
          message := GoalMessage.reachable goal_name monthly_savings
            ((max 0 goal_amount - max 0 current_savings) / monthly_savings)
          eta_date := some ((addDays today
            (⌊(max 0 goal_amount - max 0 current_savings) / monthly_savings
                * (30.44 : ℚ)⌋).toNat).isoformat) } := by
  unfold goal_eta
  rw [if_neg (not_le.mpr h1), if_neg (not_le.mpr h2)]
  have hpos : (0 : ℚ) ≤ (max 0 goal_amount - max 0 current_savings)
      / monthly_savings * (30.44 : ℚ) :=
    le_of_lt (mul_pos (div_pos h1 h2) (by norm_num))
  rw [show pyInt ((max 0 goal_amount - max 0 current_savings)
      / monthly_savings * (30.44 : ℚ))
      = ⌊(max 0 goal_amount - max 0 current_savings) / monthly_savings
          * (30.44 : ℚ)⌋ by unfold pyInt; rw [if_pos hpos]]

theorem goal_eta_reachable_spec_witness :
    0 < max 0 (1000 : ℚ) - max 0 (0 : ℚ)
    ∧ (0 : ℚ) < 500
    ∧ goal_eta 1000 0 500 ⟨2026, 1, 1⟩ "Goal"
      = { months_needed := some (roundTo 1
            ((max 0 (1000 : ℚ) - max 0 (0 : ℚ)) / 500))
          reachable := true
          message := GoalMessage.reachable "Goal" 500
            ((max 0 (1000 : ℚ) - max 0 (0 : ℚ)) / 500)
          eta_date := some ((addDays ⟨2026, 1, 1⟩
            (⌊(max 0 (1000 : ℚ) - max 0 (0 : ℚ)) / 500
                * (30.44 : ℚ)⌋).toNat).isoformat) } :=
  ⟨by norm_num, by norm_num,
    goal_eta_reachable_spec 1000 0 500 ⟨2026, 1, 1⟩ "Goal" (by norm_num)
      (by norm_num)⟩

/-- C7 (counterexample): at goalAmount = 1000, currentSavings = 0,
monthlySavings = 500 and reference date 2026-01-01, the returned eta_date
is NOT the reference date plus 61 days: `int(2.0 * 30.44) = int(60.88)`
is 60, not 61. -/
theorem goal_eta_reachable_case_cx :
    (goal_eta 1000 0 500 ⟨2026, 1, 1⟩ "Goal").eta_date
      ≠ some ((addDays ⟨2026, 1, 1⟩ 61).isoformat) := by
  unfold goal_eta
  rw [if_neg (by norm_num), if_neg (by norm_num)]
  have hq : (max 0 (1000 : ℚ) - max 0 (0 : ℚ)) / 500 * (30.44 : ℚ)
      = 1522/25 := by norm_num
  rw [hq]
  rw [show pyInt (1522/25 : ℚ) = 60 by
    unfold pyInt
    rw [if_pos (by norm_num)]
    exact Int.floor_eq_iff.mpr ⟨by norm_num, by norm_num⟩]
  decide

/-- C7 (amended): at goalAmount = 1000, currentSavings = 0,
monthlySavings = 500 and reference date 2026-01-01, `goal_eta` returns
monthsNeeded = 2.0, reachable = true, and etaDate = the reference date
plus 60 days (`int(2.0 * 30.44) = 60`), i.e. 2026-03-02. -/
theorem goal_eta_reachable_case :
    goal_eta 1000 0 500 ⟨2026, 1, 1⟩ "Goal"
      = { months_needed := some 2
          reachable := true
          message := GoalMessage.reachable "Goal" 500 2
          eta_date := some "2026-03-02" }
    ∧ addDays ⟨2026, 1, 1⟩ 60 = ⟨2026, 3, 2⟩ := by
  constructor
  · unfold goal_eta
    rw [if_neg (by norm_num), if_neg (by norm_num)]
    have hq : (max 0 (1000 : ℚ) - max 0 (0 : ℚ)) / 500 = 2 := by norm_num
    rw [hq]
    rw [show roundTo 1 (2 : ℚ) = 2 by
      unfold roundTo
      rw [rndHalfEven_of_below (2 * 10 ^ 1) 20 (by norm_num) (by norm_num)]
      norm_num]
    rw [show pyInt ((2 : ℚ) * (30.44 : ℚ)) = 60 by
      unfold pyInt
      rw [if_pos (by norm_num)]
      exact Int.floor_eq_iff.mpr ⟨by norm_num, by norm_num⟩]
    simp only [GoalEtaResult.mk.injEq]
    refine ⟨trivial, trivial, trivial, ?_⟩
    decide
  · decide

/-- C10: at goalAmount = 1000, currentSavings = 999, monthlySavings = 100
the goal is not already met, yet `goal_eta` takes the reachable branch
and returns months_needed = 0.0 (1/100 rounded to 1 decimal),
reachable = true and a non-null eta_date; a returned months_needed of 0
therefore does not imply the goal is already met. -/
theorem goal_eta_zero_months_reachable :
    ¬(max 0 (1000 : ℚ) - max 0 (999 : ℚ) ≤ 0)
    ∧ (goal_eta 1000 999 100 ⟨2026, 1, 1⟩ "Goal").months_needed = some 0
    ∧ (goal_eta 1000 999 100 ⟨2026, 1, 1⟩ "Goal").reachable = true
    ∧ (goal_eta 1000 999 100 ⟨2026, 1, 1⟩ "Goal").eta_date ≠ none := by
  have hgoal : goal_eta 1000 999 100 ⟨2026, 1, 1⟩ "Goal"
      = { months_needed := some 0
          reachable := true
          message := GoalMessage.reachable "Goal" 100 (1/100)
          eta_date := some "2026-01-01" } := by
    unfold goal_eta
    rw [if_neg (by norm_num), if_neg (by norm_num)]
    rw [show (max 0 (1000 : ℚ) - max 0 (999 : ℚ)) / 100 = 1/100 by norm_num]
    rw [show roundTo 1 (1/100 : ℚ) = 0 by
      unfold roundTo
      rw [rndHalfEven_of_below (1/100 * 10 ^ 1) 0 (by norm_num) (by norm_num)]
      norm_num]
    rw [show pyInt ((1/100 : ℚ) * (30.44 : ℚ)) = 0 by
      unfold pyInt
      rw [if_pos (by norm_num)]
      exact Int.floor_eq_iff.mpr ⟨by norm_num, by norm_num⟩]
    simp only [GoalEtaResult.mk.injEq]
    refine ⟨trivial, trivial, trivial, ?_⟩
    decide
  refine ⟨by norm_num, by rw [hgoal], by rw [hgoal], by rw [hgoal]; simp⟩

/-- C8 (counterexample): the equation
yearly_savings = yearly_current − yearly_alternative fails over the
returned rounded fields at currentExpense = 1/1024,
alternativeExpense = 1/2048, frequencyPerWeek = 1 (all exactly
representable as doubles): the fields are 0.05, 0.03 and 0.03, and
0.03 ≠ 0.05 − 0.03. -/
theorem paper_cut_rounded_identity_cx :
    (paper_cut_yearly_impact (1/1024) (1/2048) 1 "").yearly_savings
      ≠ (paper_cut_yearly_impact (1/1024) (1/2048) 1 "").yearly_current
        - (paper_cut_yearly_impact (1/1024) (1/2048) 1 "").yearly_alternative := by
  have hmax : max (0 : ℚ) 1 = 1 := max_eq_right (by norm_num)
  have hc : (paper_cut_yearly_impact (1/1024) (1/2048) 1 "").yearly_current
      = 1/20 := by
    show roundTo 2 ((1/1024 : ℚ) * max 0 1 * 52) = 1/20
    rw [hmax]
    unfold roundTo
    rw [rndHalfEven_of_below ((1/1024 : ℚ) * 1 * 52 * 10 ^ 2) 5 (by norm_num)
      (by norm_num)]
    norm_num
  have ha : (paper_cut_yearly_impact (1/1024) (1/2048) 1 "").yearly_alternative
      = 3/100 := by
    show roundTo 2 ((1/2048 : ℚ) * max 0 1 * 52) = 3/100
    rw [hmax]
    unfold roundTo
    rw [rndHalfEven_of_above ((1/2048 : ℚ) * 1 * 52 * 10 ^ 2) 2 (by norm_num)
      (by norm_num)]
    norm_num
  have hs : (paper_cut_yearly_impact (1/1024) (1/2048) 1 "").yearly_savings
      = 3/100 := by
    show roundTo 2 ((1/1024 : ℚ) * max 0 1 * 52
      - (1/2048 : ℚ) * max 0 1 * 52) = 3/100
    rw [hmax]
    unfold roundTo
    rw [rndHalfEven_of_above (((1/1024 : ℚ) * 1 * 52
      - (1/2048 : ℚ) * 1 * 52) * 10 ^ 2) 2 (by norm_num) (by norm_num)]
    norm_num
  rw [hc, ha, hs]
  norm_num

/-- C8 (amended): the returned yearly_savings is the 2-decimal rounding of
the difference of the UNROUNDED yearly values; it can therefore differ
from yearly_current − yearly_alternative computed over the returned
rounded fields, but by at most one cent. -/
theorem paper_cut_yearly_savings_bound (current_expense alternative_expense
    frequency_per_week : ℚ) (description : String) :
    (paper_cut_yearly_impact current_expense alternative_expense
        frequency_per_week description).yearly_savings
      = roundTo 2 (current_expense * max 0 frequency_per_week * 52
          - alternative_expense * max 0 frequency_per_week * 52)
    ∧ |(paper_cut_yearly_impact current_expense alternative_expense
          frequency_per_week description).yearly_savings
        - ((paper_cut_yearly_impact current_expense alternative_expense
            frequency_per_week description).yearly_current
          - (paper_cut_yearly_impact current_expense alternative_expense
              frequency_per_week description).yearly_alternative)|
      ≤ 1/100 :=
  ⟨rfl, roundTo_sub_sub_bound
    (current_expense * max 0 frequency_per_week * 52)
    (alternative_expense * max 0 frequency_per_week * 52)⟩

/-- C9: with the backend injected as a client, `run_ai_assistant` (given a
non-empty key) runs the fixed prompt against `models_to_try` in order: a
transient server error on one model re-issues the same prompt against the
next candidate; if every candidate raises a server error it returns the
single try-again-later message naming support@dedaluslabs.ai; and a
rate-limit failure is surfaced immediately as the rate-limit message,
without trying further models. -/
theorem run_ai_assistant_fallback (client : String → String → AgentOutcome)
    (api_key user_message budget_context : String)
    (hkey : api_key ≠ "") :
    (run_ai_assistant client api_key user_message budget_context
      = run_models client (build_prompt user_message budget_context)
          models_to_try)
    ∧ (∀ model rest,
        client (build_prompt user_message budget_context) model
          = AgentOutcome.internalServerError →
        run_models client (build_prompt user_message budget_context)
            (model :: rest)
          = run_models client (build_prompt user_message budget_context)
              rest)
    ∧ ((∀ model ∈ models_to_try,
        client (build_prompt user_message budget_context) model
          = AgentOutcome.internalServerError) →
        run_ai_assistant client api_key user_message budget_context
          = all_models_failed_message)
    ∧ (∀ model rest,
        client (build_prompt user_message budget_context) model
          = AgentOutcome.rateLimitError →
        run_models client (build_prompt user_message budget_context)
            (model :: rest)
          = rate_limit_message) := by
  refine ⟨?_, ?_, ?_, ?_⟩
  · unfold run_ai_assistant
    rw [if_neg hkey]
  · intro model rest h
    simp only [run_models, h]
  · intro hall
    unfold run_ai_assistant
    rw [if_neg hkey]
    have h1 := hall "anthropic/claude-opus-4-6" (by simp [models_to_try])
    have h2 := hall "anthropic/claude-sonnet-4" (by simp [models_to_try])
    have h3 := hall "anthropic/claude-3-5-sonnet-latest"
      (by simp [models_to_try])
    simp only [models_to_try, run_models, h1, h2, h3]
  · intro model rest h
    simp only [run_models, h]

theorem run_ai_assistant_fallback_witness :
    ("key" : String) ≠ ""
    ∧ ((run_ai_assistant (fun _ _ => AgentOutcome.internalServerError)
        "key" "hello" "ctx"
      = run_models (fun _ _ => AgentOutcome.internalServerError)
          (build_prompt "hello" "ctx") models_to_try)
    ∧ (∀ model rest,
        (fun (_ _ : String) => AgentOutcome.internalServerError)
            (build_prompt "hello" "ctx") model
          = AgentOutcome.internalServerError →
        run_models (fun _ _ => AgentOutcome.internalServerError)
            (build_prompt "hello" "ctx") (model :: rest)
          = run_models (fun _ _ => AgentOutcome.internalServerError)
              (build_prompt "hello" "ctx") rest)
    ∧ ((∀ model ∈ models_to_try,
        (fun (_ _ : String) => AgentOutcome.internalServerError)
            (build_prompt "hello" "ctx") model
          = AgentOutcome.internalServerError) →
        run_ai_assistant (fun _ _ => AgentOutcome.internalServerError)
            "key" "hello" "ctx"
          = all_models_failed_message)
    ∧ (∀ model rest,
        (fun (_ _ : String) => AgentOutcome.internalServerError)
            (build_prompt "hello" "ctx") model
          = AgentOutcome.rateLimitError →
        run_models (fun _ _ => AgentOutcome.internalServerError)
            (build_prompt "hello" "ctx") (model :: rest)
          = rate_limit_message)) :=
  ⟨by decide, run_ai_assistant_fallback
    (fun _ _ => AgentOutcome.internalServerError) "key" "hello" "ctx"
    (by decide)⟩

end BudgetWise
